import Mathlib

/-!
# Verification of the collecting-dots dashboard route handlers

Shallow embedding, in Lean 4, of the server-side logic of the
collecting-dots dashboard: the artist/event registry CRUD handlers,
the demo listing cache and its in-place status patch, the
assistant-action and owner-action demo workflow handlers, the
rejected-folder cleanup sweep, and the demo-submission feature flag.

External collaborators (Dropbox listing/download/move/delete, the
key-value cache, the email sender, JS library routines such as
`Date` parsing) are modelled as explicit oracle parameters or as
small executable models of the library behaviour; all decision
logic of the handlers themselves is translated directly from the
TypeScript source.
-/

namespace CollectingDots

/-! ## JS string primitives

Executable models of the JavaScript string operations the handlers
use (`trim`, substring containment, `endsWith`, `toLowerCase`),
defined structurally over `String.data` so they evaluate in the
kernel. -/

/-- JS `String.prototype.trim` whitespace class (modelled by
`Char.isWhitespace`, which covers the ASCII whitespace the
repository's data uses). -/
def jsWs (c : Char) : Bool := c.isWhitespace

/-- JS `s.trim()`: drop leading and trailing whitespace. -/
def jsTrim (s : String) : String :=
  ⟨((s.data.dropWhile jsWs).reverse.dropWhile jsWs).reverse⟩

/-- Does list `h` start with list `n`? -/
def startsWithL : List Char → List Char → Bool
  | [], _ => true
  | _ :: _, [] => false
  | a :: as, b :: bs => a = b && startsWithL as bs

/-- Does list `h` contain list `n` as a contiguous run? -/
def containsL (n : List Char) : List Char → Bool
  | [] => startsWithL n []
  | c :: t => startsWithL n (c :: t) || containsL n t

/-- JS `s.includes(sub)`. -/
def jsContains (s sub : String) : Bool := containsL sub.data s.data

/-- JS `s.endsWith(t)`. -/
def jsEndsWith (s t : String) : Bool := startsWithL t.data.reverse s.data.reverse

/-- JS `s.toLowerCase()` (ASCII; the file names involved are ASCII). -/
def jsLower (s : String) : String := ⟨s.data.map Char.toLower⟩

/-- JS string `<` comparison (lexicographic by code unit); used to model
the default `Array.prototype.sort` on strings. -/
def jsStrLe (a b : String) : Bool := a = b || decide (a < b)

/-- Insert into a sorted list (model of the effect of JS `sort()` on a
string array). -/
def insertSorted (a : String) : List String → List String
  | [] => [a]
  | b :: t => if jsStrLe a b then a :: b :: t else b :: insertSorted a t

/-- Sort a string list ascending, as JS `Array.prototype.sort()` does for
an array of strings. -/
def jsSort : List String → List String
  | [] => []
  | a :: t => insertSorted a (jsSort t)

/-- JS `arr.join("|")`. -/
def joinBar : List String → String
  | [] => ""
  | h :: t => t.foldl (fun acc s => acc ++ "|" ++ s) h

/-! ## JS 32-bit arithmetic and `Number.prototype.toString(36)` -/

/-- Coerce an integer to JS 32-bit signed semantics (`x | 0`, `x & x`,
`x << 5` all truncate to two's-complement 32 bits). -/
def toInt32 (i : Int) : Int :=
  let m := i % 4294967296
  if m ≥ 2147483648 then m - 4294967296 else m

/-- One step of the folder-hash loop from `generateFolderHash`:
`hash = ((hash << 5) - hash) + char; hash = hash & hash`. -/
def jsHashStep (h : Int) (c : Char) : Int :=
  toInt32 (toInt32 (h * 32) - h + c.toNat)

/-- The accumulating hash loop of `generateFolderHash`. -/
def jsHash (s : String) : Int := s.data.foldl jsHashStep 0

/-- Digit character for base 36 (`0-9a-z`, as JS `toString(36)`). -/
def base36Digit (n : Nat) : Char :=
  if n < 10 then Char.ofNat (48 + n) else Char.ofNat (87 + n)

/-- Fuel-driven base-36 digit expansion (fuel ≥ n suffices). -/
def natToB36Aux : Nat → Nat → List Char → List Char
  | 0, _, acc => acc
  | _ + 1, 0, acc => acc
  | fuel + 1, n, acc => natToB36Aux fuel (n / 36) (base36Digit (n % 36) :: acc)

/-- JS `n.toString(36)` for a nonnegative integer. -/
def natToB36 (n : Nat) : String :=
  if n = 0 then "0" else ⟨natToB36Aux (n + 1) n []⟩

/-- JS `hash.toString(36)` on a 32-bit signed value. -/
def int32ToBase36 (i : Int) : String :=
  if i < 0 then "-" ++ natToB36 (-i).toNat else natToB36 i.toNat

/-! ## Feature flag (src/lib/services/settings-service.ts)

The Upstash client stores and returns deserialized JSON values; the
value under the single key `settings:demo_submission_enabled` is
modelled as an optional `RedisVal` (`none` = key never set). -/

/-- A deserialized value held in the key-value cache. -/
inductive RedisVal
  | bool (b : Bool)
  | str (s : String)
  | num (i : Int)
deriving DecidableEq

/-- Model of `DEFAULT_DEMO_SUBMISSION_ENABLED` from settings-service.ts. -/
def DEFAULT_DEMO_SUBMISSION_ENABLED : Bool := true

/-- Model of `getDemoSubmissionEnabled`: read the flag key; if the stored value is
a boolean return it, otherwise (absent or non-boolean, the
`typeof enabled === 'boolean'` guard) return the default. -/
def getDemoSubmissionEnabled (store : Option RedisVal) : Bool :=
  match store with
  | some (.bool b) => b
  | _ => DEFAULT_DEMO_SUBMISSION_ENABLED

/-- Model of `setDemoSubmissionEnabled`: overwrite the flag key with the boolean. -/
def setDemoSubmissionEnabled (enabled : Bool) (_store : Option RedisVal) :
    Option RedisVal :=
  some (.bool enabled)

/-! ## URL parsing (model of the WHATWG `URL` constructor)

The validators call `new URL(url.trim())` and read `.protocol` and
`.hostname`.  We model the constructor for the absolute
`scheme://…` URLs the dashboard deals with: split at the first
`"://"`, take the authority up to the first `/`, `?` or `#`, strip
any `:port` suffix, lowercase the host.  A string without `"://"`
or with an empty scheme or host models a constructor throw
(`none`). -/

/-- Split a character list at the first occurrence of `sep`,
returning the parts before and after it. -/
def splitFirstL (sep : List Char) : List Char → Option (List Char × List Char)
  | [] => if sep = [] then some ([], []) else none
  | c :: t =>
    if startsWithL sep (c :: t) then some ([], (c :: t).drop sep.length)
    else match splitFirstL sep t with
      | some (pre, post) => some (c :: pre, post)
      | none => none

/-- Model of `new URL(s)` on the already-trimmed string: returns
`(protocol, hostname)` as JS exposes them (`protocol` keeps the
trailing colon, `hostname` is lowercased, port stripped), or `none`
for a parse failure. -/
def parseURL (s : String) : Option (String × String) :=
  match splitFirstL [':', '/', '/'] s.data with
  | none => none
  | some (scheme, rest) =>
    if scheme = [] then none
    else
      let authority := rest.takeWhile (fun c => c ≠ '/' && c ≠ '?' && c ≠ '#')
      let host := authority.takeWhile (fun c => c ≠ ':')
      if host = [] then none
      else some (⟨scheme.map Char.toLower⟩ ++ ":", ⟨host.map Char.toLower⟩)

/-! ## Artist registry (`/api/artists` route handlers)

The Dropbox download of `artist_urls.json` is abstracted as an
`Option (List Artist)` argument (`none` = HTTP failure / missing
file / unparsable or empty body, all of which the handlers treat
the same way in the paths the claims concern); a handler's write
back to Dropbox is reported in the `uploaded` field of its result
(`none` = no upload was issued). -/

/-- An artist record of `artist_urls.json`. -/
structure Artist where
  artist_name : String
  artist_instagram_username : String
  artist_soundcloud : String
  artist_spotify : String
  artist_beatport : String
deriving DecidableEq

/-- The JSON body of a POST/PUT `/api/artists` request
(fields absent from the JSON are `none`; `index` is the result of
`parseInt(index, 10)`, `none` covering a missing parameter or NaN). -/
structure ArtistBody where
  index : Option Int := none
  artist_name : Option String := none
  artist_instagram_username : Option String := none
  artist_soundcloud : Option String := none
  artist_spotify : Option String := none
  artist_beatport : Option String := none

/-- Outcome of a registry handler: HTTP status of the JSON response,
and the array contents uploaded to Dropbox, if an upload was issued. -/
structure RegResult (α : Type) where
  status : Nat
  uploaded : Option (List α)
deriving DecidableEq

/-- Model of `validateSoundCloudURL`: http/https protocol and a hostname
containing `soundcloud.com`. -/
def validateSoundCloudURL (url : String) : Bool :=
  match parseURL (jsTrim url) with
  | none => false
  | some (proto, host) =>
    (proto = "http:" || proto = "https:") && jsContains host "soundcloud.com"

/-- Model of `validateSpotifyURL`: http/https protocol and a hostname containing
`spotify.com`. -/
def validateSpotifyURL (url : String) : Bool :=
  match parseURL (jsTrim url) with
  | none => false
  | some (proto, host) =>
    (proto = "http:" || proto = "https:") && jsContains host "spotify.com"

/-- Model of `validateBeatportURL`: http/https protocol and a hostname containing
`beatport.com`. -/
def validateBeatportURL (url : String) : Bool :=
  match parseURL (jsTrim url) with
  | none => false
  | some (proto, host) =>
    (proto = "http:" || proto = "https:") && jsContains host "beatport.com"

/-- JS truthiness test used by the handlers on a string field:
`!field` is true exactly when the field is absent or the empty
string. -/
def strFalsy (f : Option String) : Bool :=
  match f with
  | none => true
  | some s => s = ""

/-- The `.trim().length === 0` check of the handlers (a string's trim
has length zero exactly when it is empty). -/
def trimBlank (s : String) : Bool := jsTrim s = ""

/-- Model of `POST /api/artists`: required-field and non-blank validation, then
append the trimmed record to the downloaded array (an unreadable or
missing file starts from the empty array) and upload the result. -/
def artistsPost (b : ArtistBody) (dl : Option (List Artist)) :
    RegResult Artist :=
  if strFalsy b.artist_name || strFalsy b.artist_instagram_username ||
      strFalsy b.artist_soundcloud || strFalsy b.artist_spotify ||
      strFalsy b.artist_beatport then
    ⟨400, none⟩
  else
    match b.artist_name, b.artist_instagram_username, b.artist_soundcloud,
        b.artist_spotify, b.artist_beatport with
    | some n, some ig, some sc, some sp, some bp =>
      if trimBlank n || trimBlank ig || trimBlank sc || trimBlank sp ||
          trimBlank bp then
        ⟨400, none⟩
      else
        let existing := dl.getD []
        let newArtist : Artist :=
          ⟨jsTrim n, jsTrim ig, jsTrim sc, jsTrim sp, jsTrim bp⟩
        ⟨200, some (existing ++ [newArtist])⟩
    | _, _, _, _, _ => ⟨400, none⟩

/-- The JS indexed filter `arr.filter((_, i) => i !== idx)`, with the
running index made explicit. -/
def jsFilterIdxNe {α : Type} (idx : Int) : Nat → List α → List α
  | _, [] => []
  | k, a :: t =>
    if (k : Int) = idx then jsFilterIdxNe idx (k + 1) t
    else a :: jsFilterIdxNe idx (k + 1) t

/-- Model of `arr.filter((_, i) => i !== idx)` from index 0. -/
def removeAt {α : Type} (l : List α) (idx : Int) : List α :=
  jsFilterIdxNe idx 0 l

/-- The JS indexed map `arr.map((x, i) => i === idx ? repl : x)`. -/
def jsMapIdxReplace {α : Type} (idx : Int) (repl : α) : Nat → List α → List α
  | _, [] => []
  | k, a :: t =>
    (if (k : Int) = idx then repl else a) :: jsMapIdxReplace idx repl (k + 1) t

/-- Model of `arr.map((x, i) => i === idx ? repl : x)` from index 0. -/
def replaceAt {α : Type} (l : List α) (idx : Int) (repl : α) : List α :=
  jsMapIdxReplace idx repl 0 l

/-- Model of `PUT /api/artists`: index checks, required/non-blank field checks,
the three URL-host validations, download (404 when that fails),
bounds check (400 when the index is past the end), map-replace at
the index and upload. -/
def artistsPut (b : ArtistBody) (dl : Option (List Artist)) :
    RegResult Artist :=
  match b.index with
  | none => ⟨400, none⟩
  | some idx =>
    if idx < 0 then ⟨400, none⟩
    else if strFalsy b.artist_name || strFalsy b.artist_instagram_username ||
        strFalsy b.artist_soundcloud || strFalsy b.artist_spotify ||
        strFalsy b.artist_beatport then
      ⟨400, none⟩
    else
      match b.artist_name, b.artist_instagram_username, b.artist_soundcloud,
          b.artist_spotify, b.artist_beatport with
      | some n, some ig, some sc, some sp, some bp =>
        if trimBlank n || trimBlank ig || trimBlank sc || trimBlank sp ||
            trimBlank bp then
          ⟨400, none⟩
        else if !validateSoundCloudURL sc then ⟨400, none⟩
        else if !validateSpotifyURL sp then ⟨400, none⟩
        else if !validateBeatportURL bp then ⟨400, none⟩
        else
          match dl with
          | none => ⟨404, none⟩
          | some artists =>
            if (artists.length : Int) ≤ idx then ⟨400, none⟩
            else
              let updated : Artist :=
                ⟨jsTrim n, jsTrim ig, jsTrim sc, jsTrim sp, jsTrim bp⟩
              ⟨200, some (replaceAt artists idx updated)⟩
      | _, _, _, _, _ => ⟨400, none⟩

/-- Model of `DELETE /api/artists?index=i`: parse/bounds checks (400 when the
index is past the end), download (404 when that fails), indexed
filter and upload. -/
def artistsDelete (index : Option Int) (dl : Option (List Artist)) :
    RegResult Artist :=
  match index with
  | none => ⟨400, none⟩
  | some idx =>
    if idx < 0 then ⟨400, none⟩
    else
      match dl with
      | none => ⟨404, none⟩
      | some artists =>
        if (artists.length : Int) ≤ idx then ⟨400, none⟩
        else ⟨200, some (removeAt artists idx)⟩

/-! ## Event registry (`/api/events` route handlers) -/

/-- An event record of `events.json` (the two URL fields are optional
JSON properties, omitted when absent). -/
structure Event where
  event_title : String
  location : String
  date : String
  times : String
  artists : String
  event_external_url : Option String := none
  event_instagram_post : Option String := none
deriving DecidableEq

/-- The JSON body of a POST/PUT `/api/events` request. -/
structure EventBody where
  index : Option Int := none
  event_title : Option String := none
  location : Option String := none
  date : Option String := none
  times : Option String := none
  artists : Option String := none
  event_external_url : Option String := none
  event_instagram_post : Option String := none

/-- Model of `validateDateFormat`: `DD/MM/YYYY` shape on the trimmed string, then
range checks day 1–31, month 1–12, year 1900–2100. -/
def validateDateFormat (date : String) : Bool :=
  match (jsTrim date).data with
  | [d1, d2, '/', m1, m2, '/', y1, y2, y3, y4] =>
    if d1.isDigit && d2.isDigit && m1.isDigit && m2.isDigit &&
        y1.isDigit && y2.isDigit && y3.isDigit && y4.isDigit then
      let dayNum := (d1.toNat - 48) * 10 + (d2.toNat - 48)
      let monthNum := (m1.toNat - 48) * 10 + (m2.toNat - 48)
      let yearNum := (y1.toNat - 48) * 1000 + (y2.toNat - 48) * 100 +
        (y3.toNat - 48) * 10 + (y4.toNat - 48)
      decide (1 ≤ dayNum) && decide (dayNum ≤ 31) &&
        decide (1 ≤ monthNum) && decide (monthNum ≤ 12) &&
        decide (1900 ≤ yearNum) && decide (yearNum ≤ 2100)
    else false
  | _ => false

/-- Model of `validateURL`: any http/https URL. -/
def validateURL (url : String) : Bool :=
  match parseURL (jsTrim url) with
  | none => false
  | some (proto, _) => proto = "http:" || proto = "https:"

/-- The optional-field spreads
`...(field && field.trim() && { field: field.trim() })`:
included trimmed only when present and non-blank. -/
def optTrim (f : Option String) : Option String :=
  match f with
  | none => none
  | some s => if s = "" then none else if jsTrim s = "" then none
      else some (jsTrim s)

/-- Build the event record the handlers construct from validated body
fields. -/
def mkEvent (t l d ti a : String) (ext ig : Option String) : Event :=
  { event_title := jsTrim t, location := jsTrim l, date := jsTrim d,
    times := jsTrim ti, artists := jsTrim a,
    event_external_url := optTrim ext, event_instagram_post := optTrim ig }

/-- Model of `POST /api/events`: required-field and non-blank validation, then
append the trimmed record (optional URLs included only when
non-blank) and upload. -/
def eventsPost (b : EventBody) (dl : Option (List Event)) :
    RegResult Event :=
  if strFalsy b.event_title || strFalsy b.location || strFalsy b.date ||
      strFalsy b.times || strFalsy b.artists then
    ⟨400, none⟩
  else
    match b.event_title, b.location, b.date, b.times, b.artists with
    | some t, some l, some d, some ti, some a =>
      if trimBlank t || trimBlank l || trimBlank d || trimBlank ti ||
          trimBlank a then
        ⟨400, none⟩
      else
        let existing := dl.getD []
        ⟨200, some (existing ++
          [mkEvent t l d ti a b.event_external_url b.event_instagram_post])⟩
    | _, _, _, _, _ => ⟨400, none⟩

/-- JS truthiness guard `field && field.trim()` on an optional string:
true when the field is present, non-empty, and non-blank after
trimming. -/
def optProvided (f : Option String) : Bool :=
  match f with
  | none => false
  | some s => !(s = "") && !(jsTrim s = "")

/-- Model of `PUT /api/events`: index checks, required/non-blank checks, date
format check, URL checks on the provided optional fields, download
(404 when that fails), bounds check (400 past the end), map-replace
and upload. -/
def eventsPut (b : EventBody) (dl : Option (List Event)) :
    RegResult Event :=
  match b.index with
  | none => ⟨400, none⟩
  | some idx =>
    if idx < 0 then ⟨400, none⟩
    else if strFalsy b.event_title || strFalsy b.location ||
        strFalsy b.date || strFalsy b.times || strFalsy b.artists then
      ⟨400, none⟩
    else
      match b.event_title, b.location, b.date, b.times, b.artists with
      | some t, some l, some d, some ti, some a =>
        if trimBlank t || trimBlank l || trimBlank d || trimBlank ti ||
            trimBlank a then
          ⟨400, none⟩
        else if !validateDateFormat d then ⟨400, none⟩
        else if optProvided b.event_external_url &&
            !validateURL (b.event_external_url.getD "") then ⟨400, none⟩
        else if optProvided b.event_instagram_post &&
            !validateURL (b.event_instagram_post.getD "") then ⟨400, none⟩
        else
          match dl with
          | none => ⟨404, none⟩
          | some events =>
            if (events.length : Int) ≤ idx then ⟨400, none⟩
            else
              ⟨200, some (replaceAt events idx
                (mkEvent t l d ti a b.event_external_url
                  b.event_instagram_post))⟩
      | _, _, _, _, _ => ⟨400, none⟩

/-- Model of `DELETE /api/events?index=i`: parse/bounds checks (400 past the
end), download (404 when that fails), indexed filter and upload. -/
def eventsDelete (index : Option Int) (dl : Option (List Event)) :
    RegResult Event :=
  match index with
  | none => ⟨400, none⟩
  | some idx =>
    if idx < 0 then ⟨400, none⟩
    else
      match dl with
      | none => ⟨404, none⟩
      | some events =>
        if (events.length : Int) ≤ idx then ⟨400, none⟩
        else ⟨200, some (removeAt events idx)⟩

/-! ## Demo listing cache (`/api/demos` route, src/unnamed/part_003) -/

/-- The four status folders of `STATUS_FOLDERS`. -/
inductive StatusF
  | submitted
  | assistant_liked
  | rejected
  | owner_liked
deriving DecidableEq

/-- The Dropbox path of a status folder. -/
def folderPath : StatusF → String
  | .submitted => "/demos/submitted"
  | .assistant_liked => "/demos/assistant_liked"
  | .rejected => "/demos/rejected"
  | .owner_liked => "/demos/owner_liked"

/-- Model of `Object.entries(STATUS_FOLDERS)` iteration order. -/
def allStatuses : List StatusF :=
  [.submitted, .assistant_liked, .rejected, .owner_liked]

/-- A Dropbox folder-listing entry as the handlers read it
(`.tag === 'file'`, `name`, optional `server_modified` ISO string). -/
structure FileEntry where
  isFile : Bool
  name : String
  server_modified : Option String := none
deriving DecidableEq

/-- Model of `generateFolderHash`: signature string `name:server_modified` of the
file entries, sorted and joined with `|`, put through the 32-bit
string hash and rendered in base 36. -/
def generateFolderHash (files : List FileEntry) : String :=
  let fileSignature := joinBar (jsSort
    ((files.filter (fun f => f.isFile)).map
      (fun f => f.name ++ ":" ++ f.server_modified.getD "")))
  int32ToBase36 (jsHash fileSignature)

/-- A demo entry of the cached listing. -/
structure Demo where
  demo_id : String
  track_title : String
  artist_name : String
  shared_link : String
  submitted_at : String
  status : String
  email : String
deriving DecidableEq

/-- The cache value under `demos:cache` (`folderHashes` is a JS object
keyed by folder path; a missing key is `none`). -/
structure DemoCache where
  demos : List Demo
  folderHashes : StatusF → Option String
  timestamp : Int

/-- Model of `getDemoStatusFromCache`: find the demo by id in the cached list and
return its status; `demo?.status || null` collapses a missing demo
and an empty status string to `null`. -/
def getDemoStatusFromCache (demoId : String) (cache : Option DemoCache) :
    Option String :=
  match cache with
  | none => none
  | some c =>
    match c.demos.find? (fun d => d.demo_id = demoId) with
    | none => none
    | some d => if d.status = "" then none else some d.status

/-- In-place update of the status field of the element at an index
(`cache.demos[demoIndex].status = newStatus`). -/
def updStatus : List Demo → Nat → String → List Demo
  | [], _, _ => []
  | d :: t, 0, st => { d with status := st } :: t
  | d :: t, n + 1, st => d :: updStatus t n st

/-- Model of `updateDemoStatusInCache`: on a cache hit for the demo id, patch the
status in place, recompute every folder hash from a fresh listing
(keeping the old hash, defaulted to `""`, for a folder whose
listing fails) and write the cache back with a fresh TTL.  Returns
the resulting cache value and whether a write was issued.  With no
cache entry or no matching demo nothing is written and no error is
raised. -/
def updateDemoStatusInCache (demoId newStatus : String)
    (cache : Option DemoCache)
    (listings : StatusF → Option (List FileEntry)) :
    Option DemoCache × Bool :=
  match cache with
  | none => (none, false)
  | some c =>
    match c.demos.findIdx? (fun d => d.demo_id = demoId) with
    | none => (some c, false)
    | some demoIndex =>
      let newDemos := updStatus c.demos demoIndex newStatus
      let updatedFolderHashes : StatusF → Option String := fun f =>
        match listings f with
        | some files => some (generateFolderHash files)
        | none => some ((c.folderHashes f).getD "")
      (some { demos := newDemos, folderHashes := updatedFolderHashes,
              timestamp := c.timestamp }, true)

/-- Environment of one `GET /api/demos` request: the cache value, the
per-folder listing results (`none` = the listing call threw), the
clock, and the outcome of `fetchDemosFromFolder` per folder
(`none` = that promise rejected).  `fetchDemosFromFolder` itself
(metadata downloads and share-link generation) is network-bound
work whose results the cache gate treats opaquely, so it enters the
model as an oracle, as does the JS `Date` parse used by the sort
comparator (`sortKey`). -/
structure DemosEnv where
  cache : Option DemoCache
  listings : StatusF → Option (List FileEntry)
  now : Int
  fetchFolder : StatusF → Option (List Demo)
  sortKey : String → Int

/-- Response of `GET /api/demos` as far as the claims observe it:
the `cached` flag, the returned page of demos, the total count, the
folders fully refetched on the miss path, and the cache value
written back (refetch path only). -/
structure DemosResponse where
  cached : Bool
  demos : List Demo
  count : Nat
  refetched : List StatusF
  cacheWritten : Option DemoCache

/-- Model of `CACHE_DURATION` (15 minutes in milliseconds). -/
def CACHE_DURATION : Int := 900000

/-- The `(page - 1) * perPage` slice of the demo list. -/
def paginate (l : List Demo) (page perPage : Nat) : List Demo :=
  (l.drop ((page - 1) * perPage)).take perPage

/-- Descending-timestamp insertion used to model the JS sort by
submission date (newest first); the comparator key is the oracle
`sortKey` applied to the stored timestamp string. -/
def insertByKey (key : Demo → Int) (a : Demo) : List Demo → List Demo
  | [] => [a]
  | b :: t => if key b ≤ key a then a :: b :: t else b :: insertByKey key a t

/-- Sort demos newest-first by the comparator key. -/
def sortByKeyDesc (key : Demo → Int) : List Demo → List Demo
  | [] => []
  | a :: t => insertByKey key a (sortByKeyDesc key t)

/-- The full-refetch path of `GET /api/demos`: fetch all four folders,
keep the fulfilled results in folder order, sort newest-first,
cache the result with the fresh digests of the folders that listed
successfully. -/
def demosRefetch (env : DemosEnv) (page perPage : Nat) : DemosResponse :=
  let currentFolderHashes : StatusF → Option String := fun f =>
    (env.listings f).map generateFolderHash
  let allDemos :=
    (allStatuses.map (fun f => (env.fetchFolder f).getD [])).flatten
  let sorted := sortByKeyDesc (fun d => env.sortKey d.submitted_at) allDemos
  let newCache : DemoCache :=
    { demos := sorted, folderHashes := currentFolderHashes,
      timestamp := env.now }
  { cached := false, demos := paginate sorted page perPage,
    count := sorted.length, refetched := allStatuses,
    cacheWritten := some newCache }

/-- The `foldersChanged` flag of `GET /api/demos`: some folder's
listing failed, the cache is absent, or some folder's fresh digest
differs from the cached one. -/
def foldersChangedB (env : DemosEnv) : Bool :=
  allStatuses.any (fun f =>
    match env.listings f with
    | none => true
    | some files =>
      match env.cache with
      | none => true
      | some c => !(decide (c.folderHashes f = some (generateFolderHash files))))

/-- The `cacheExpired` flag of `GET /api/demos`: no cache, or the cache
is more than `CACHE_DURATION` old. -/
def cacheExpiredB (env : DemosEnv) : Bool :=
  match env.cache with
  | none => true
  | some c => decide (env.now - c.timestamp > CACHE_DURATION)

/-- Model of `GET /api/demos`: compare each folder's fresh digest against the
cached one (a listing failure or missing cache forces a refresh),
check the 15-minute age bound, and either answer from the cache
(`cached: true`, same ordering) or refetch all four folders via
`demosRefetch`. -/
def demosGET (env : DemosEnv) (page perPage : Nat) : DemosResponse :=
  match env.cache with
  | some c =>
    if !foldersChangedB env && !cacheExpiredB env then
      { cached := true, demos := paginate c.demos page perPage,
        count := c.demos.length, refetched := [], cacheWritten := none }
    else
      demosRefetch env page perPage
  | none => demosRefetch env page perPage

/-! ## Demo workflow actions
(`POST /api/demos/[demo_id]/assistant-action`, src/unnamed/part_001, and
`POST /api/demos/[demo_id]/owner-action`, src/unnamed/part_002) -/

/-- The demo metadata sidecar as the action handlers read it (only the
fields the email step uses matter to the claims). -/
structure DemoMetadata where
  artist_name : String
  track_title : String
  email : String
  demo_id : String
deriving DecidableEq

/-- The `email_status` object of the assistant-action response. -/
structure EmailStatus where
  notification_sent : Bool
  error : Option String
deriving DecidableEq

/-- Environment of one action request: per-folder listing results
(`none` = the listing call threw, which `findDemoInFolder` catches
and treats as not-found), the cache status looked up for this demo
id, whether the two `filesMoveV2` calls succeed, the metadata
download oracle (folder and sidecar file name), and the email
service state. -/
structure ActionEnv where
  listFolder : StatusF → Option (List FileEntry)
  cacheStatus : Option String
  moveOk : Bool
  fetchMeta : StatusF → String → Option DemoMetadata
  emailConfigured : Bool
  emailLikedOk : Bool
  emailRejectedOk : Bool

/-- Result of an action handler, including the effect trace the claims
are about: which folders were listed through `findDemoInFolder`,
which metadata download was issued after the move, whether
`sendActionEmail` was invoked, and which move was performed. -/
structure ActionResult where
  status : Nat
  email_status : Option EmailStatus
  probed : List StatusF
  metaFetched : Option (StatusF × String)
  emailAttempted : Bool
  moved : Option (StatusF × StatusF × String × String)

/-- Model of `findDemoInFolder` of the assistant-action handler: list the folder
(a listing error yields `null`), find a file entry whose lowercased
name ends in `.mp3` or `.wav` and contains the demo id, then the
sidecar named `<audio>.metadata.json`.  Returns the pair of file
names. -/
def findDemoA (listing : Option (List FileEntry)) (demoId : String) :
    Option (String × String) :=
  match listing with
  | none => none
  | some files =>
    match files.find? (fun f => f.isFile &&
        (jsEndsWith (jsLower f.name) ".mp3" ||
          jsEndsWith (jsLower f.name) ".wav") &&
        jsContains f.name demoId) with
    | none => none
    | some audioFile =>
      let metadataFileName := audioFile.name ++ ".metadata.json"
      match files.find? (fun f => f.name = metadataFileName) with
      | none => none
      | some _ => some (audioFile.name, metadataFileName)

/-- Model of `findDemoInFolder` of the owner-action handler: same shape but the
audio match is a case-sensitive `.mp3` suffix only. -/
def findDemoO (listing : Option (List FileEntry)) (demoId : String) :
    Option (String × String) :=
  match listing with
  | none => none
  | some files =>
    match files.find? (fun f => f.isFile && jsEndsWith f.name ".mp3" &&
        jsContains f.name demoId) with
    | none => none
    | some mp3File =>
      let metadataFileName := mp3File.name ++ ".metadata.json"
      match files.find? (fun f => f.name = metadataFileName) with
      | none => none
      | some _ => some (mp3File.name, metadataFileName)

/-- Model of `sendActionEmail`: skipped when the service is unconfigured;
otherwise dispatch on the action to the liked or rejected template
and report whether the send succeeded. -/
def sendActionEmailM (action : String) (env : ActionEnv) : EmailStatus :=
  if !env.emailConfigured then
    ⟨false, some "Email service not configured"⟩
  else if action = "like" then
    if env.emailLikedOk then ⟨true, none⟩
    else ⟨false, some "Failed to send email"⟩
  else if action = "reject" then
    if env.emailRejectedOk then ⟨true, none⟩
    else ⟨false, some "Failed to send email"⟩
  else ⟨false, some "No email for this action type"⟩

/-- A failure result of an action handler (non-2xx responses carry no
`email_status`). -/
def actionFail (status : Nat) (probed : List StatusF) : ActionResult :=
  { status := status, email_status := none, probed := probed,
    metaFetched := none, emailAttempted := false, moved := none }

/-- The source-folder resolution of the assistant handler for the given
action (for `reject`, driven by the cached status with a fallback
probe of the submitted folder on a miss), together with the folders
probed while resolving. -/
def assistantSource (demoId action : String) (env : ActionEnv) :
    StatusF × List StatusF :=
  if action = "like" then (.submitted, [])
  else if action = "reject" then
    match env.cacheStatus with
    | some "submitted" => (.submitted, [])
    | some "assistant_liked" => (.assistant_liked, [])
    | _ =>
      let demoInSubmitted := findDemoA (env.listFolder .submitted) demoId
      (if demoInSubmitted.isSome then .submitted else .assistant_liked,
        [.submitted])
  else (.rejected, [])

/-- The destination folder of the assistant handler per action. -/
def assistantDest (action : String) : StatusF :=
  if action = "like" then .assistant_liked
  else if action = "reject" then .rejected
  else .assistant_liked

/-- The tail of the assistant handler after `findDemoInFolder` on the
resolved source folder: 404 when the pair was not found, 500 when a
move fails, otherwise the move followed for `like`/`reject` by the
metadata re-download from the destination folder and the email
attempt, whose outcome lands in `email_status` (`undo_reject`
reports the initial "Email not attempted" value). -/
def assistantFinish (action : String) (env : ActionEnv) (src : StatusF)
    (probed1 : List StatusF) (found : Option (String × String)) :
    ActionResult :=
  let dst := assistantDest action
  match found with
  | none => actionFail 404 (probed1 ++ [src])
  | some (audioName, metadataFileName) =>
    if !env.moveOk then actionFail 500 (probed1 ++ [src])
    else
      let moved := some (src, dst, audioName, metadataFileName)
      if action = "like" || action = "reject" then
        match env.fetchMeta dst metadataFileName with
        | some _ =>
          { status := 200,
            email_status := some (sendActionEmailM action env),
            probed := probed1 ++ [src],
            metaFetched := some (dst, metadataFileName),
            emailAttempted := true, moved := moved }
        | none =>
          { status := 200,
            email_status :=
              some ⟨false, some "Could not fetch demo metadata"⟩,
            probed := probed1 ++ [src],
            metaFetched := some (dst, metadataFileName),
            emailAttempted := false, moved := moved }
      else
        { status := 200,
          email_status := some ⟨false, some "Email not attempted"⟩,
          probed := probed1 ++ [src],
          metaFetched := none, emailAttempted := false, moved := moved }

/-- Model of `POST /api/demos/[demo_id]/assistant-action`: validate the action,
resolve source and destination folders, locate the demo pair in the
source folder and finish with `assistantFinish`. -/
def assistantAction (demoId action : String) (env : ActionEnv) :
    ActionResult :=
  if !(action = "like" || action = "reject" || action = "undo_reject") then
    actionFail 400 []
  else
    let (src, probed1) := assistantSource demoId action env
    assistantFinish action env src probed1
      (findDemoA (env.listFolder src) demoId)

/-- The source-folder resolution of the owner handler (for `reject`,
driven by the cached status with a fallback probe of the
assistant_liked folder on a miss). -/
def ownerSource (demoId action : String) (env : ActionEnv) :
    StatusF × List StatusF :=
  if action = "approve" then (.assistant_liked, [])
  else if action = "like" then (.submitted, [])
  else if action = "reject" then
    match env.cacheStatus with
    | some "assistant_liked" => (.assistant_liked, [])
    | some "submitted" => (.submitted, [])
    | _ =>
      let demoInAssistantLiked :=
        findDemoO (env.listFolder .assistant_liked) demoId
      (if demoInAssistantLiked.isSome then .assistant_liked else .submitted,
        [.assistant_liked])
  else (.rejected, [])

/-- The destination folder of the owner handler per action. -/
def ownerDest (action : String) : StatusF :=
  if action = "approve" then .owner_liked
  else if action = "like" then .assistant_liked
  else if action = "reject" then .rejected
  else .assistant_liked

/-- The tail of the owner handler after `findDemoInFolder`: 404 when
the pair was not found, 500 when a move fails, otherwise success
with no email step and no `email_status`. -/
def ownerFinish (action : String) (env : ActionEnv) (src : StatusF)
    (probed1 : List StatusF) (found : Option (String × String)) :
    ActionResult :=
  match found with
  | none => actionFail 404 (probed1 ++ [src])
  | some (mp3Name, metadataFileName) =>
    if !env.moveOk then actionFail 500 (probed1 ++ [src])
    else
      { status := 200, email_status := none, probed := probed1 ++ [src],
        metaFetched := none, emailAttempted := false,
        moved := some (src, ownerDest action, mp3Name, metadataFileName) }

/-- Model of `POST /api/demos/[demo_id]/owner-action`: validate the action,
resolve folders, locate the demo pair in the source folder and
finish with `ownerFinish`. -/
def ownerAction (demoId action : String) (env : ActionEnv) : ActionResult :=
  if !(action = "approve" || action = "reject" || action = "undo_reject" ||
      action = "like") then
    actionFail 400 []
  else
    let (src, probed1) := ownerSource demoId action env
    ownerFinish action env src probed1 (findDemoO (env.listFolder src) demoId)

/-! ## Rejected-folder cleanup sweep
(src/app/api/cron/cleanup-rejected/route.ts, `GET`) -/

/-- Model of `CLEANUP_INTERVAL_MS` (24 hours in milliseconds). -/
def CLEANUP_INTERVAL_MS : Int := 86400000

/-- Model of `MAX_ERROR_DETAILS`. -/
def MAX_ERROR_DETAILS : Nat := 20

/-- A listing entry of the rejected folder as the sweep reads it.  The
`server_modified` ISO string is modelled post-`Date` parse as an
epoch-milliseconds value (`none` = the field is absent or empty,
which the JS truthiness guard skips). -/
structure CleanEntry where
  isFile : Bool
  name : String
  path_lower : Option String := none
  path_display : Option String := none
  server_modified : Option Int := none
deriving DecidableEq

/-- JS `a || b` on optional strings (an empty string is falsy). -/
def jsOrStr (a b : Option String) : Option String :=
  match a with
  | some s => if s = "" then b else some s
  | none => b

/-- Model of `fileEntry.path_lower || fileEntry.path_display || fileEntry.name`. -/
def entryPath (e : CleanEntry) : String :=
  (jsOrStr (jsOrStr e.path_lower e.path_display) (some e.name)).getD ""

/-- The staleness filter of the sweep: a stored `server_modified`
timestamp at or below `now - CLEANUP_INTERVAL_MS` (an absent
timestamp is never stale). -/
def staleB (now : Int) (e : CleanEntry) : Bool :=
  match e.server_modified with
  | none => false
  | some t => decide (t ≤ now - CLEANUP_INTERVAL_MS)

/-- Accumulator of the delete loop: counters, the capped error list and
the trace of `filesDeleteV2` calls issued (path and success). -/
structure SweepAcc where
  deleted : Nat
  failed : Nat
  errors : List (String × String)
  attempted : List (String × Bool)
deriving DecidableEq

/-- One iteration of the delete loop: an empty path counts as a failure
without a delete call; otherwise issue the delete, count the
outcome, and record an error detail while under the cap. -/
def sweepStep (deleteOk : String → Bool) (acc : SweepAcc) (e : CleanEntry) :
    SweepAcc :=
  let filePath := entryPath e
  if filePath = "" then
    { acc with
      failed := acc.failed + 1
      errors :=
        if acc.errors.length < MAX_ERROR_DETAILS then
          acc.errors ++ [("unknown", "Missing path for Dropbox entry")]
        else acc.errors }
  else if deleteOk filePath then
    { acc with
      deleted := acc.deleted + 1
      attempted := acc.attempted ++ [(filePath, true)] }
  else
    { acc with
      failed := acc.failed + 1
      attempted := acc.attempted ++ [(filePath, false)]
      errors :=
        if acc.errors.length < MAX_ERROR_DETAILS then
          acc.errors ++ [(filePath, "delete error")]
        else acc.errors }

/-- Result of the sweep as far as the claims observe it. -/
structure SweepResult where
  scanned : Nat
  staleCount : Nat
  deleted : Nat
  failed : Nat
  errors : List (String × String)
  attempted : List (String × Bool)
deriving DecidableEq

/-- The `GET /api/cron/cleanup-rejected` sweep body: keep the file
entries, filter to the stale ones, and run the delete loop over
them; per-file failures are counted and the loop continues.
`deleteOk` is the Dropbox delete oracle (whether `filesDeleteV2`
succeeds for a path). -/
def cleanupSweep (now : Int) (entries : List CleanEntry)
    (deleteOk : String → Bool) : SweepResult :=
  let fileEntries := entries.filter (fun e => e.isFile)
  let staleFiles := fileEntries.filter (staleB now)
  let acc := staleFiles.foldl (sweepStep deleteOk) ⟨0, 0, [], []⟩
  { scanned := fileEntries.length, staleCount := staleFiles.length,
    deleted := acc.deleted, failed := acc.failed, errors := acc.errors,
    attempted := acc.attempted }

/-! ## Concrete environments used by the claim witnesses -/

/-- A concrete demo entry for the C10 witness. -/
def demoW1 : Demo :=
  ⟨"d1", "T1", "A1", "L1", "20240101_000000", "submitted", "e1"⟩

/-- A second concrete demo entry for the C10 witness. -/
def demoW2 : Demo :=
  ⟨"d2", "T2", "A2", "L2", "20240102_000000", "submitted", "e2"⟩

/-- A concrete two-demo cache value for the C10 witness. -/
def cacheW : DemoCache :=
  { demos := [demoW1, demoW2], folderHashes := fun _ => some "h",
    timestamp := 5 }

/-- A concrete action environment for the C4 witness: empty folders
everywhere and a cache that knows nothing. -/
def envMissW : ActionEnv :=
  { listFolder := fun _ => some [], cacheStatus := none, moveOk := true,
    fetchMeta := fun _ _ => none, emailConfigured := true,
    emailLikedOk := true, emailRejectedOk := true }

/-- C1 counterexample: a concrete owner-action environment in which a
`like` transition fully succeeds. -/
def envOwnW : ActionEnv :=
  { listFolder := fun f =>
      if f = StatusF.submitted then
        some [⟨true, "track_d1.mp3", none⟩,
          ⟨true, "track_d1.mp3.metadata.json", none⟩]
      else some [],
    cacheStatus := none, moveOk := true,
    fetchMeta := fun _ _ => some ⟨"A", "T", "e", "d1"⟩,
    emailConfigured := true, emailLikedOk := true, emailRejectedOk := true }

/-- A concrete assistant-action environment for the C1 witness: the
demo sits in the submitted folder, the cache knows it, moves and
the metadata re-download and the email send all succeed. -/
def envAsstW : ActionEnv :=
  { listFolder := fun f =>
      if f = StatusF.submitted then
        some [⟨true, "track_d1.mp3", none⟩,
          ⟨true, "track_d1.mp3.metadata.json", none⟩]
      else some [],
    cacheStatus := some "submitted", moveOk := true,
    fetchMeta := fun _ _ => some ⟨"A", "T", "e", "d1"⟩,
    emailConfigured := true, emailLikedOk := true, emailRejectedOk := true }

/-- The cached demo snapshot used by the C5 theorems: empty folders
whose digests match and a timestamp exactly `CACHE_DURATION` in the
past. -/
def cacheC5 : DemoCache :=
  { demos := [demoW1], folderHashes := fun _ => some (generateFolderHash []),
    timestamp := 0 }

/-- The request environment used by the C5 counterexample: the clock
sits exactly 15 minutes past the cache timestamp. -/
def envC5 : DemosEnv :=
  { cache := some cacheC5, listings := fun _ => some [],
    now := CACHE_DURATION, fetchFolder := fun _ => some [],
    sortKey := fun _ => 0 }

/-- The request environment used by the C5 witness: same snapshot but
a clock only 100 ms past the cache timestamp. -/
def envHitW : DemosEnv :=
  { cache := some cacheC5, listings := fun _ => some [], now := 100,
    fetchFolder := fun _ => some [], sortKey := fun _ => 0 }

/-! ## Helper lemmas about the indexed filter -/

theorem mem_allStatuses (f : StatusF) : f ∈ allStatuses := by
  cases f <;> simp [allStatuses]

theorem jsFilterIdxNe_skip {α : Type} (idx : Int) (k : Nat) (l : List α)
    (h : idx < (k : Int)) : jsFilterIdxNe idx k l = l := by
  induction l generalizing k with
  | nil => rfl
  | cons a t ih =>
    unfold jsFilterIdxNe
    rw [if_neg (by omega), ih (k + 1) (by omega)]

theorem jsFilterIdxNe_eq_take_drop {α : Type} (n k : Nat) (l : List α) :
    jsFilterIdxNe (((k + n : Nat) : Int)) k l = l.take n ++ l.drop (n + 1) := by
  induction l generalizing n k with
  | nil => cases n <;> rfl
  | cons a t ih =>
    cases n with
    | zero =>
      unfold jsFilterIdxNe
      rw [if_pos (by omega), jsFilterIdxNe_skip _ _ _ (by omega)]
      simp
    | succ m =>
      unfold jsFilterIdxNe
      rw [if_neg (by omega)]
      have h1 : k + (m + 1) = (k + 1) + m := by omega
      rw [h1, ih m (k + 1)]
      simp

theorem removeAt_eq_take_drop {α : Type} (l : List α) (n : Nat) :
    removeAt l ((n : Nat) : Int) = l.take n ++ l.drop (n + 1) := by
  have h := jsFilterIdxNe_eq_take_drop n 0 l
  simpa [removeAt] using h

/-! ## Claim theorems -/

/-- C8: the demo-submission feature flag defaults to `true` when no
value has ever been stored under its key, and after
`setDemoSubmissionEnabled b` every subsequent read returns `b`
(reads are pure, so the value persists across any number of reads,
in particular `false` persists after being set). -/
theorem demo_submission_flag_default_and_persists :
    getDemoSubmissionEnabled none = true ∧
    ∀ (b : Bool) (store : Option RedisVal),
      getDemoSubmissionEnabled (setDemoSubmissionEnabled b store) = b := by
  exact ⟨rfl, fun b store => rfl⟩

/-- C2 counterexample: a DELETE `/api/artists?index=0` against a
registry file holding an empty array hits the missing-index
condition, and the handler answers 400, not the 404 the claim
states (the file is indeed left unchanged). -/
theorem registry_oob_counterexample :
    (artistsDelete (some 0) (some [])).status = 400 ∧
    ¬ (artistsDelete (some 0) (some [])).status = 404 ∧
    (artistsDelete (some 0) (some [])).uploaded = none := by
  refine ⟨rfl, by decide, rfl⟩

/-- C2 amended: for every PUT or DELETE on `/api/artists` or
`/api/events` whose index parameter is a non-negative integer at or
past the current array length, the operation fails with HTTP status
400 ("index out of range" or an earlier validation failure on the
same request) and no upload is issued, leaving the stored registry
file unchanged. -/
theorem registry_oob_returns_400_unchanged :
    (∀ (b : ArtistBody) (l : List Artist) (i : Int), b.index = some i →
      0 ≤ i → (l.length : Int) ≤ i →
      (artistsPut b (some l)).status = 400 ∧
        (artistsPut b (some l)).uploaded = none) ∧
    (∀ (l : List Artist) (i : Int), 0 ≤ i → (l.length : Int) ≤ i →
      (artistsDelete (some i) (some l)).status = 400 ∧
        (artistsDelete (some i) (some l)).uploaded = none) ∧
    (∀ (b : EventBody) (l : List Event) (i : Int), b.index = some i →
      0 ≤ i → (l.length : Int) ≤ i →
      (eventsPut b (some l)).status = 400 ∧
        (eventsPut b (some l)).uploaded = none) ∧
    (∀ (l : List Event) (i : Int), 0 ≤ i → (l.length : Int) ≤ i →
      (eventsDelete (some i) (some l)).status = 400 ∧
        (eventsDelete (some i) (some l)).uploaded = none) := by
  refine ⟨?_, ?_, ?_, ?_⟩
  · intro b l i hb h0 hlen
    simp only [artistsPut, hb]
    repeat' split
    all_goals exact ⟨rfl, rfl⟩
  · intro l i h0 hlen
    simp only [artistsDelete]
    repeat' split
    all_goals exact ⟨rfl, rfl⟩
  · intro b l i hb h0 hlen
    simp only [eventsPut, hb]
    repeat' split
    all_goals exact ⟨rfl, rfl⟩
  · intro l i h0 hlen
    simp only [eventsDelete]
    repeat' split
    all_goals exact ⟨rfl, rfl⟩

/-- C2 witness: the amended theorem applied to a concrete out-of-range
delete. -/
theorem registry_oob_returns_400_unchanged_witness :
    (artistsDelete (some 2)
      (some [⟨"A", "a", "s", "p", "b"⟩])).status = 400 := by
  exact (registry_oob_returns_400_unchanged.2.1 _ 2 (by decide)
    (by decide)).1

/-- C7: a successful DELETE of an in-range index `n` on `/api/artists`
or `/api/events` uploads an array one shorter in which entries
below `n` keep their positions and every entry previously at a
position `j > n` now sits at position `j - 1`. -/
theorem registry_delete_reindexes :
    (∀ (l : List Artist) (n : Nat), n < l.length →
      (artistsDelete (some ((n : Nat) : Int)) (some l)).status = 200 ∧
      ∃ l2, (artistsDelete (some ((n : Nat) : Int)) (some l)).uploaded =
          some l2 ∧
        l2.length = l.length - 1 ∧
        (∀ j, j < n → l2[j]? = l[j]?) ∧
        (∀ j, n < j → l2[j - 1]? = l[j]?)) ∧
    (∀ (l : List Event) (n : Nat), n < l.length →
      (eventsDelete (some ((n : Nat) : Int)) (some l)).status = 200 ∧
      ∃ l2, (eventsDelete (some ((n : Nat) : Int)) (some l)).uploaded =
          some l2 ∧
        l2.length = l.length - 1 ∧
        (∀ j, j < n → l2[j]? = l[j]?) ∧
        (∀ j, n < j → l2[j - 1]? = l[j]?)) := by
  constructor
  · intro l n hn
    have hnn : ¬ (((n : Nat) : Int) < 0) := by omega
    have hlen : ¬ ((l.length : Int) ≤ ((n : Nat) : Int)) := by
      omega
    constructor
    · simp only [artistsDelete, hnn, if_false, hlen]
    · refine ⟨removeAt l ((n : Nat) : Int), ?_, ?_, ?_, ?_⟩
      · simp only [artistsDelete, hnn, if_false, hlen]
      · rw [removeAt_eq_take_drop]
        simp only [List.length_append, List.length_take, List.length_drop]
        omega
      · intro j hj
        rw [removeAt_eq_take_drop, List.getElem?_append,
          if_pos (by simp only [List.length_take]; omega),
          List.getElem?_take, if_pos hj]
      · intro j hj
        rw [removeAt_eq_take_drop, List.getElem?_append_right
          (by simp only [List.length_take]; omega)]
        rw [List.getElem?_drop]
        congr 1
        simp only [List.length_take]
        omega
  · intro l n hn
    have hnn : ¬ (((n : Nat) : Int) < 0) := by omega
    have hlen : ¬ ((l.length : Int) ≤ ((n : Nat) : Int)) := by
      omega
    constructor
    · simp only [eventsDelete, hnn, if_false, hlen]
    · refine ⟨removeAt l ((n : Nat) : Int), ?_, ?_, ?_, ?_⟩
      · simp only [eventsDelete, hnn, if_false, hlen]
      · rw [removeAt_eq_take_drop]
        simp only [List.length_append, List.length_take, List.length_drop]
        omega
      · intro j hj
        rw [removeAt_eq_take_drop, List.getElem?_append,
          if_pos (by simp only [List.length_take]; omega),
          List.getElem?_take, if_pos hj]
      · intro j hj
        rw [removeAt_eq_take_drop, List.getElem?_append_right
          (by simp only [List.length_take]; omega)]
        rw [List.getElem?_drop]
        congr 1
        simp only [List.length_take]
        omega

/-- C7 witness: deleting index 1 of a three-element artist array keeps
entry 0 in place and shifts entry 2 down to position 1. -/
theorem registry_delete_reindexes_witness :
    (artistsDelete (some 1)
      (some [⟨"A", "a", "sa", "pa", "ba"⟩, ⟨"B", "b", "sb", "pb", "bb"⟩,
        ⟨"C", "c", "sc", "pc", "bc"⟩])).status = 200 := by
  exact (registry_delete_reindexes.1
    [⟨"A", "a", "sa", "pa", "ba"⟩, ⟨"B", "b", "sb", "pb", "bb"⟩,
      ⟨"C", "c", "sc", "pc", "bc"⟩] 1 (by decide)).1

/-- C6: a POST to `/api/artists` or `/api/events` whose required fields
are all present and non-blank, against a registry file that is
missing or downloads empty (`dl = none`, which also covers the
empty-body parse failure) or parses to an empty array, succeeds and
uploads a file holding exactly one record whose fields are the
input fields with surrounding whitespace trimmed (an optional event
URL field is kept, trimmed, exactly when it was provided
non-blank). -/
theorem registry_post_empty_store :
    (∀ (n ig sc sp bp : String) (dl : Option (List Artist)),
      jsTrim n ≠ "" → jsTrim ig ≠ "" → jsTrim sc ≠ "" → jsTrim sp ≠ "" →
      jsTrim bp ≠ "" → (dl = none ∨ dl = some []) →
      (artistsPost ⟨none, some n, some ig, some sc, some sp, some bp⟩
          dl).status = 200 ∧
      (artistsPost ⟨none, some n, some ig, some sc, some sp, some bp⟩
          dl).uploaded =
        some [⟨jsTrim n, jsTrim ig, jsTrim sc, jsTrim sp, jsTrim bp⟩]) ∧
    (∀ (t l d ti a : String) (ext ig : Option String)
      (dl : Option (List Event)),
      jsTrim t ≠ "" → jsTrim l ≠ "" → jsTrim d ≠ "" → jsTrim ti ≠ "" →
      jsTrim a ≠ "" → (dl = none ∨ dl = some []) →
      (eventsPost ⟨none, some t, some l, some d, some ti, some a, ext, ig⟩
          dl).status = 200 ∧
      (eventsPost ⟨none, some t, some l, some d, some ti, some a, ext, ig⟩
          dl).uploaded = some [mkEvent t l d ti a ext ig] ∧
      (mkEvent t l d ti a ext ig).event_title = jsTrim t ∧
      (mkEvent t l d ti a ext ig).location = jsTrim l ∧
      (mkEvent t l d ti a ext ig).date = jsTrim d ∧
      (mkEvent t l d ti a ext ig).times = jsTrim ti ∧
      (mkEvent t l d ti a ext ig).artists = jsTrim a ∧
      (mkEvent t l d ti a ext ig).event_external_url = optTrim ext ∧
      (mkEvent t l d ti a ext ig).event_instagram_post = optTrim ig) := by
  have hne : ∀ s : String, jsTrim s ≠ "" → ¬ (s = "") := by
    intro s h hs
    exact h (by rw [hs]; rfl)
  constructor
  · intro n ig sc sp bp dl hn hig hsc hsp hbp hdl
    have hstep :
        artistsPost ⟨none, some n, some ig, some sc, some sp, some bp⟩ dl =
          ⟨200, some (dl.getD [] ++
            [⟨jsTrim n, jsTrim ig, jsTrim sc, jsTrim sp, jsTrim bp⟩])⟩ := by
      simp only [artistsPost, strFalsy, trimBlank]
      rw [if_neg, if_neg]
      · simp only [Bool.or_eq_true, decide_eq_true_eq, not_or]
        exact ⟨⟨⟨⟨hn, hig⟩, hsc⟩, hsp⟩, hbp⟩
      · simp only [Bool.or_eq_true, decide_eq_true_eq, not_or]
        exact ⟨⟨⟨⟨hne n hn, hne ig hig⟩, hne sc hsc⟩, hne sp hsp⟩, hne bp hbp⟩
    rcases hdl with h | h <;> rw [hstep, h] <;> exact ⟨rfl, rfl⟩
  · intro t l d ti a ext ig dl ht hl hd hti ha hdl
    have hstep :
        eventsPost ⟨none, some t, some l, some d, some ti, some a, ext, ig⟩
            dl =
          ⟨200, some (dl.getD [] ++ [mkEvent t l d ti a ext ig])⟩ := by
      simp only [eventsPost, strFalsy, trimBlank]
      rw [if_neg, if_neg]
      · simp only [Bool.or_eq_true, decide_eq_true_eq, not_or]
        exact ⟨⟨⟨⟨ht, hl⟩, hd⟩, hti⟩, ha⟩
      · simp only [Bool.or_eq_true, decide_eq_true_eq, not_or]
        exact ⟨⟨⟨⟨hne t ht, hne l hl⟩, hne d hd⟩, hne ti hti⟩, hne a ha⟩
    rcases hdl with h | h <;> rw [hstep, h] <;>
      exact ⟨rfl, rfl, rfl, rfl, rfl, rfl, rfl, rfl, rfl⟩

/-- C6 witness: the spec's scenario — POST `/api/artists` with name
`"X"` and the three platform URLs against an empty store uploads
exactly that one trimmed record. -/
theorem registry_post_empty_store_witness :
    (artistsPost ⟨none, some "X", some "x", some "https://soundcloud.com/x",
        some "https://open.spotify.com/x",
        some "https://www.beatport.com/artist/x"⟩ none).uploaded =
      some [⟨"X", "x", "https://soundcloud.com/x",
        "https://open.spotify.com/x", "https://www.beatport.com/artist/x"⟩] := by
  have h := (registry_post_empty_store.1 "X" "x" "https://soundcloud.com/x"
    "https://open.spotify.com/x" "https://www.beatport.com/artist/x" none
    (by decide) (by decide) (by decide) (by decide) (by decide)
    (Or.inl rfl)).2
  rw [h]
  rfl

/-- C9: URL-host validation on the artist platform fields is enforced
only on the edit path.  The concrete body with a non-SoundCloud
`artist_soundcloud` URL is rejected with 400 by PUT `/api/artists`
(even against a registry where index 0 exists), while POST
`/api/artists` with the same fields succeeds and stores the
record. -/
theorem artists_validation_only_on_edit :
    (artistsPut ⟨some 0, some "X", some "x", some "https://example.com/x",
        some "https://open.spotify.com/x",
        some "https://www.beatport.com/artist/x"⟩
      (some [⟨"A", "a", "s", "p", "b"⟩])).status = 400 ∧
    (artistsPut ⟨some 0, some "X", some "x", some "https://example.com/x",
        some "https://open.spotify.com/x",
        some "https://www.beatport.com/artist/x"⟩
      (some [⟨"A", "a", "s", "p", "b"⟩])).uploaded = none ∧
    (artistsPost ⟨none, some "X", some "x", some "https://example.com/x",
        some "https://open.spotify.com/x",
        some "https://www.beatport.com/artist/x"⟩ (some [])).status = 200 ∧
    (artistsPost ⟨none, some "X", some "x", some "https://example.com/x",
        some "https://open.spotify.com/x",
        some "https://www.beatport.com/artist/x"⟩ (some [])).uploaded =
      some [⟨"X", "x", "https://example.com/x", "https://open.spotify.com/x",
        "https://www.beatport.com/artist/x"⟩] := by
  refine ⟨by decide, by decide, by decide, by decide⟩

/-! ## Helper lemmas about the cleanup loop -/

theorem sweep_foldl_attempted (deleteOk : String → Bool)
    (l : List CleanEntry) (acc : SweepAcc) :
    (l.foldl (sweepStep deleteOk) acc).attempted =
      acc.attempted ++ (l.filter (fun e => !(entryPath e = ""))).map
        (fun e => (entryPath e, deleteOk (entryPath e))) := by
  induction l generalizing acc with
  | nil => simp
  | cons e t ih =>
    simp only [List.foldl_cons, List.filter_cons]
    by_cases hp : entryPath e = ""
    · rw [ih]
      simp [sweepStep, hp]
    · by_cases hd : deleteOk (entryPath e) <;> rw [ih] <;>
        simp [sweepStep, hp, hd]

theorem sweep_foldl_failed (deleteOk : String → Bool)
    (l : List CleanEntry) (acc : SweepAcc) :
    (l.foldl (sweepStep deleteOk) acc).failed =
      acc.failed + (l.filter (fun e =>
        entryPath e = "" || !(deleteOk (entryPath e)))).length := by
  induction l generalizing acc with
  | nil => simp
  | cons e t ih =>
    simp only [List.foldl_cons, List.filter_cons]
    by_cases hp : entryPath e = ""
    · rw [ih]
      simp only [sweepStep, hp, if_pos rfl]
      simp [hp]
      omega
    · by_cases hd : deleteOk (entryPath e)
      · rw [ih]
        simp [sweepStep, hp, hd]
      · rw [ih]
        simp [sweepStep, hp, hd]
        omega

/-- C3: the rejected-folder cleanup sweep only ever issues a delete for
a file entry whose stored `server_modified` timestamp makes it
stale (so never for one that is absent or strictly younger than the
24-hour interval); every stale file with a usable path gets its
delete attempted even when earlier deletes fail; and failures are
counted rather than aborting the loop. -/
theorem cleanup_sweep_safe_and_continues (now : Int)
    (entries : List CleanEntry) (deleteOk : String → Bool) :
    (∀ e, e.server_modified = none ∨
        (∃ t, e.server_modified = some t ∧ now - t < CLEANUP_INTERVAL_MS) →
      staleB now e = false) ∧
    (∀ p b, (p, b) ∈ (cleanupSweep now entries deleteOk).attempted →
      ∃ e, e ∈ entries ∧ e.isFile = true ∧ staleB now e = true ∧
        entryPath e = p ∧ deleteOk p = b) ∧
    (∀ e, e ∈ entries → e.isFile = true → staleB now e = true →
      entryPath e ≠ "" →
      (entryPath e, deleteOk (entryPath e)) ∈
        (cleanupSweep now entries deleteOk).attempted) ∧
    (cleanupSweep now entries deleteOk).failed =
      (((entries.filter (fun e => e.isFile)).filter (staleB now)).filter
        (fun e => entryPath e = "" || !(deleteOk (entryPath e)))).length := by
  refine ⟨?_, ?_, ?_, ?_⟩
  · intro e he
    rcases he with h | ⟨t, ht, hyoung⟩
    · simp [staleB, h]
    · simp only [staleB, ht, decide_eq_false_iff_not, not_le]
      omega
  · intro p b hmem
    simp only [cleanupSweep, sweep_foldl_attempted, List.nil_append,
      List.mem_map, List.mem_filter] at hmem
    rcases hmem with ⟨e, ⟨⟨⟨he1, he2⟩, hstale⟩, hpath⟩, heq⟩
    obtain ⟨h1, h2⟩ := Prod.mk.injEq .. ▸ heq
    exact ⟨e, he1, he2, hstale, h1, h1 ▸ h2⟩
  · intro e he hf hstale hpath
    simp only [cleanupSweep, sweep_foldl_attempted, List.nil_append,
      List.mem_map]
    refine ⟨e, ?_, rfl⟩
    rw [List.mem_filter, List.mem_filter, List.mem_filter]
    refine ⟨⟨⟨he, by simpa using hf⟩, hstale⟩, by simpa using hpath⟩
  · simp only [cleanupSweep, sweep_foldl_failed]
    omega

/-- C3 witness: a concrete sweep over one fresh file, one stale file
whose delete fails, one stale file whose delete succeeds and one
timestamp-less file: only the two stale files are attempted, in
order, and the failure is counted without stopping the loop. -/
theorem cleanup_sweep_safe_and_continues_witness :
    (cleanupSweep 200000000
      [⟨true, "young.mp3", some "/demos/rejected/young.mp3", none,
          some 199999999⟩,
        ⟨true, "bad.mp3", some "/demos/rejected/bad.mp3", none, some 1000⟩,
        ⟨true, "old.mp3", some "/demos/rejected/old.mp3", none, some 2000⟩,
        ⟨true, "nots.mp3", some "/demos/rejected/nots.mp3", none, none⟩]
      (fun p => !(p = "/demos/rejected/bad.mp3"))).attempted =
      [("/demos/rejected/bad.mp3", false),
        ("/demos/rejected/old.mp3", true)] ∧
    (cleanupSweep 200000000
      [⟨true, "young.mp3", some "/demos/rejected/young.mp3", none,
          some 199999999⟩,
        ⟨true, "bad.mp3", some "/demos/rejected/bad.mp3", none, some 1000⟩,
        ⟨true, "old.mp3", some "/demos/rejected/old.mp3", none, some 2000⟩,
        ⟨true, "nots.mp3", some "/demos/rejected/nots.mp3", none, none⟩]
      (fun p => !(p = "/demos/rejected/bad.mp3"))).failed = 1 := by
  constructor
  · decide
  · exact (cleanup_sweep_safe_and_continues 200000000 _ _).2.2.2.trans
      (by decide)

/-! ## Helper lemmas about the in-place status update -/

theorem updStatus_length (l : List Demo) (i : Nat) (st : String) :
    (updStatus l i st).length = l.length := by
  induction l generalizing i with
  | nil => rfl
  | cons d t ih =>
    cases i with
    | zero => rfl
    | succ n => simp [updStatus, ih]

theorem updStatus_get?_ne (l : List Demo) (i j : Nat) (st : String)
    (h : j ≠ i) : (updStatus l i st)[j]? = l[j]? := by
  induction l generalizing i j with
  | nil => rfl
  | cons d t ih =>
    cases i with
    | zero =>
      cases j with
      | zero => exact absurd rfl h
      | succ m => simp [updStatus]
    | succ n =>
      cases j with
      | zero => simp [updStatus]
      | succ m => simpa [updStatus] using ih n m (by omega)

theorem updStatus_get?_eq (l : List Demo) (i : Nat) (st : String) :
    (updStatus l i st)[i]? =
      (l[i]?).map (fun d => { d with status := st }) := by
  induction l generalizing i with
  | nil => rfl
  | cons d t ih =>
    cases i with
    | zero => simp [updStatus]
    | succ n => simpa [updStatus] using ih n

/-- C10: `updateDemoStatusInCache` leaves a missing cache untouched and
writes nothing; with a cache but no demo matching the id it also
writes nothing; and on a match it rewrites exactly the status field
of the first matching demo, leaves every other demo and every other
field of that demo at its position and value, keeps the cache
timestamp, recomputes the folder hashes and re-sets the entry
(fresh TTL, the `true` write flag).  No case raises an error. -/
theorem updateDemoStatusInCache_frame (demoId newStatus : String)
    (cache : Option DemoCache)
    (listings : StatusF → Option (List FileEntry)) :
    (cache = none →
      updateDemoStatusInCache demoId newStatus cache listings =
        (none, false)) ∧
    (∀ c, cache = some c →
      c.demos.findIdx? (fun d => d.demo_id = demoId) = none →
      updateDemoStatusInCache demoId newStatus cache listings =
        (some c, false)) ∧
    (∀ c i, cache = some c →
      c.demos.findIdx? (fun d => d.demo_id = demoId) = some i →
      ∃ c2, updateDemoStatusInCache demoId newStatus cache listings =
          (some c2, true) ∧
        c2.timestamp = c.timestamp ∧
        c2.demos.length = c.demos.length ∧
        (∀ j, j ≠ i → c2.demos[j]? = c.demos[j]?) ∧
        (∀ d d2, c.demos[i]? = some d → c2.demos[i]? = some d2 →
          d2.status = newStatus ∧ d2.demo_id = d.demo_id ∧
          d2.track_title = d.track_title ∧ d2.artist_name = d.artist_name ∧
          d2.shared_link = d.shared_link ∧
          d2.submitted_at = d.submitted_at ∧ d2.email = d.email) ∧
        (∀ f, c2.folderHashes f =
          match listings f with
          | some files => some (generateFolderHash files)
          | none => some ((c.folderHashes f).getD ""))) := by
  refine ⟨?_, ?_, ?_⟩
  · intro h
    rw [h]
    rfl
  · intro c hc hidx
    rw [hc]
    simp only [updateDemoStatusInCache, hidx]
  · intro c i hc hidx
    rw [hc]
    simp only [updateDemoStatusInCache, hidx]
    refine ⟨_, rfl, rfl, updStatus_length c.demos i newStatus, ?_, ?_, ?_⟩
    · intro j hj
      exact updStatus_get?_ne c.demos i j newStatus hj
    · intro d d2 hd hd2
      rw [updStatus_get?_eq, hd] at hd2
      have h2 : { d with status := newStatus } = d2 := by simpa using hd2
      rw [← h2]
      exact ⟨rfl, rfl, rfl, rfl, rfl, rfl, rfl⟩
    · intro f
      rfl

/-- C10 witness: patching the status of demo `d2` in a concrete
two-demo cache rewrites that demo's status, keeps demo `d1` and the
timestamp, and issues the write. -/
theorem updateDemoStatusInCache_frame_witness :
    ∃ c2, updateDemoStatusInCache "d2" "rejected" (some cacheW)
        (fun _ => some []) = (some c2, true) ∧
      c2.timestamp = 5 ∧ c2.demos[0]? = some demoW1 := by
  obtain ⟨c2, he, hts, _, hne, _, _⟩ :=
    (updateDemoStatusInCache_frame "d2" "rejected" (some cacheW)
      (fun _ => some [])).2.2 _ 1 rfl (by decide)
  refine ⟨c2, he, hts, ?_⟩
  rw [hne 0 (by decide)]
  rfl

/-! ## Helper lemmas about the action-handler tails -/

theorem assistantFinish_probed (action : String) (env : ActionEnv)
    (src : StatusF) (p1 : List StatusF) (found : Option (String × String)) :
    (assistantFinish action env src p1 found).probed = p1 ++ [src] := by
  rcases found with _ | ⟨a, m⟩
  · rfl
  · cases hm : env.moveOk <;>
      by_cases he : (action = "like" || action = "reject" : Bool) = true <;>
      cases hf : env.fetchMeta (assistantDest action) m <;>
      simp [assistantFinish, actionFail, hm, he, hf]

theorem assistantFinish_status_404 (action : String) (env : ActionEnv)
    (src : StatusF) (p1 : List StatusF) (found : Option (String × String)) :
    ((assistantFinish action env src p1 found).status = 404 ↔
      found = none) := by
  rcases found with _ | ⟨a, m⟩
  · simp [assistantFinish, actionFail]
  · cases hm : env.moveOk <;>
      by_cases he : (action = "like" || action = "reject" : Bool) = true <;>
      cases hf : env.fetchMeta (assistantDest action) m <;>
      simp [assistantFinish, actionFail, hm, he, hf]

theorem ownerFinish_probed (action : String) (env : ActionEnv)
    (src : StatusF) (p1 : List StatusF) (found : Option (String × String)) :
    (ownerFinish action env src p1 found).probed = p1 ++ [src] := by
  rcases found with _ | ⟨a, m⟩
  · rfl
  · cases hm : env.moveOk <;> simp [ownerFinish, actionFail, hm]

theorem ownerFinish_status_404 (action : String) (env : ActionEnv)
    (src : StatusF) (p1 : List StatusF) (found : Option (String × String)) :
    ((ownerFinish action env src p1 found).status = 404 ↔ found = none) := by
  rcases found with _ | ⟨a, m⟩
  · simp [ownerFinish, actionFail]
  · cases hm : env.moveOk <;> simp [ownerFinish, actionFail, hm]

/-- On a cache miss, the assistant reject resolves through the
fallback probe of the submitted folder. -/
theorem assistantAction_reject_miss (demoId : String) (env : ActionEnv)
    (hmiss : env.cacheStatus = none) :
    assistantAction demoId "reject" env =
      assistantFinish "reject" env
        (if (findDemoA (env.listFolder .submitted) demoId).isSome then
          .submitted else .assistant_liked)
        [.submitted]
        (findDemoA (env.listFolder
          (if (findDemoA (env.listFolder .submitted) demoId).isSome then
            .submitted else .assistant_liked)) demoId) := by
  simp [assistantAction, assistantSource, hmiss]

/-- On a cache miss, the owner reject resolves through the fallback
probe of the assistant_liked folder. -/
theorem ownerAction_reject_miss (demoId : String) (env : ActionEnv)
    (hmiss : env.cacheStatus = none) :
    ownerAction demoId "reject" env =
      ownerFinish "reject" env
        (if (findDemoO (env.listFolder .assistant_liked) demoId).isSome then
          .assistant_liked else .submitted)
        [.assistant_liked]
        (findDemoO (env.listFolder
          (if (findDemoO (env.listFolder .assistant_liked) demoId).isSome
            then .assistant_liked else .submitted)) demoId) := by
  simp [ownerAction, ownerSource, hmiss]

/-- C4: a reject action (assistant or owner) on a demo whose current
status is not found in the cache resolves the source folder through
a fallback probe, so that by the time the 404 not-found response is
produced both plausible source folders (submitted and
assistant_liked) have been probed, and the action fails with 404
exactly when the demo's file pair is found in neither folder. -/
theorem reject_cache_miss_probes_both (demoId : String) (env : ActionEnv)
    (hmiss : env.cacheStatus = none) :
    ((assistantAction demoId "reject" env).status = 404 ↔
      findDemoA (env.listFolder .submitted) demoId = none ∧
      findDemoA (env.listFolder .assistant_liked) demoId = none) ∧
    ((assistantAction demoId "reject" env).status = 404 →
      StatusF.submitted ∈ (assistantAction demoId "reject" env).probed ∧
      StatusF.assistant_liked ∈
        (assistantAction demoId "reject" env).probed) ∧
    ((ownerAction demoId "reject" env).status = 404 ↔
      findDemoO (env.listFolder .assistant_liked) demoId = none ∧
      findDemoO (env.listFolder .submitted) demoId = none) ∧
    ((ownerAction demoId "reject" env).status = 404 →
      StatusF.submitted ∈ (ownerAction demoId "reject" env).probed ∧
      StatusF.assistant_liked ∈ (ownerAction demoId "reject" env).probed) := by
  have hA := assistantAction_reject_miss demoId env hmiss
  have hO := ownerAction_reject_miss demoId env hmiss
  have hiffA : (assistantAction demoId "reject" env).status = 404 ↔
      findDemoA (env.listFolder .submitted) demoId = none ∧
      findDemoA (env.listFolder .assistant_liked) demoId = none := by
    rw [hA, assistantFinish_status_404]
    cases hsub : findDemoA (env.listFolder .submitted) demoId with
    | none => simp [hsub]
    | some v => simp [hsub]
  have hiffO : (ownerAction demoId "reject" env).status = 404 ↔
      findDemoO (env.listFolder .assistant_liked) demoId = none ∧
      findDemoO (env.listFolder .submitted) demoId = none := by
    rw [hO, ownerFinish_status_404]
    cases hal : findDemoO (env.listFolder .assistant_liked) demoId with
    | none => simp [hal]
    | some v => simp [hal]
  refine ⟨hiffA, ?_, hiffO, ?_⟩
  · intro h
    obtain ⟨hsub, _⟩ := hiffA.mp h
    rw [hA, assistantFinish_probed]
    simp [hsub]
  · intro h
    obtain ⟨hal, _⟩ := hiffO.mp h
    rw [hO, ownerFinish_probed]
    simp [hal]

/-- C4 witness: rejecting an unknown demo against empty folders fails
with 404 on both endpoints after probing both folders. -/
theorem reject_cache_miss_probes_both_witness :
    (assistantAction "dx" "reject" envMissW).status = 404 ∧
    StatusF.submitted ∈ (assistantAction "dx" "reject" envMissW).probed ∧
    StatusF.assistant_liked ∈
      (assistantAction "dx" "reject" envMissW).probed ∧
    (ownerAction "dx" "reject" envMissW).status = 404 := by
  have h := reject_cache_miss_probes_both "dx" envMissW rfl
  have h404 : (assistantAction "dx" "reject" envMissW).status = 404 :=
    h.1.mpr ⟨rfl, rfl⟩
  have hp := h.2.1 h404
  exact ⟨h404, hp.1, hp.2, h.2.2.1.mpr ⟨rfl, rfl⟩⟩

/-! ## Helper lemmas about the email step -/

theorem ownerFinish_no_email (action : String) (env : ActionEnv)
    (src : StatusF) (p1 : List StatusF) (found : Option (String × String)) :
    (ownerFinish action env src p1 found).email_status = none ∧
    (ownerFinish action env src p1 found).emailAttempted = false ∧
    (ownerFinish action env src p1 found).metaFetched = none := by
  rcases found with _ | ⟨a, m⟩
  · exact ⟨rfl, rfl, rfl⟩
  · cases hm : env.moveOk <;> simp [ownerFinish, actionFail, hm]

theorem assistantFinish_email (action : String) (env : ActionEnv)
    (src : StatusF) (p1 : List StatusF) (found : Option (String × String))
    (hact : action = "like" ∨ action = "reject")
    (h200 : (assistantFinish action env src p1 found).status = 200) :
    ∃ mn, (assistantFinish action env src p1 found).metaFetched =
        some (assistantDest action, mn) ∧
      ((env.fetchMeta (assistantDest action) mn).isSome = true →
        (assistantFinish action env src p1 found).emailAttempted = true ∧
        (assistantFinish action env src p1 found).email_status =
          some (sendActionEmailM action env)) ∧
      (env.fetchMeta (assistantDest action) mn = none →
        (assistantFinish action env src p1 found).emailAttempted = false ∧
        (assistantFinish action env src p1 found).email_status =
          some ⟨false, some "Could not fetch demo metadata"⟩) := by
  have he : (action = "like" || action = "reject" : Bool) = true := by
    rcases hact with rfl | rfl <;> simp
  rcases found with _ | ⟨a, m⟩
  · exact absurd h200 (by simp [assistantFinish, actionFail])
  · cases hm : env.moveOk with
    | false => exact absurd h200 (by simp [assistantFinish, actionFail, hm])
    | true =>
      refine ⟨m, ?_⟩
      cases hf : env.fetchMeta (assistantDest action) m with
      | some md =>
        refine ⟨?_, fun _ => ⟨?_, ?_⟩, fun hn => ?_⟩
        · simp [assistantFinish, hm, he, hf]
        · simp [assistantFinish, hm, he, hf]
        · simp [assistantFinish, hm, he, hf]
        · exact Option.noConfusion hn
      | none =>
        refine ⟨?_, fun hs => ?_, fun _ => ⟨?_, ?_⟩⟩
        · simp [assistantFinish, hm, he, hf]
        · simp at hs
        · simp [assistantFinish, hm, he, hf]
        · simp [assistantFinish, hm, he, hf]

/-- C1 counterexample: a successful owner-action `like` transition
moves the files but its response carries no `email_status` at all
and no email was attempted, so the claim's "whether performed via
the assistant-action or the owner-action endpoint" fails on the
owner endpoint. -/
theorem owner_like_sends_no_email :
    (ownerAction "d1" "like" envOwnW).status = 200 ∧
    (ownerAction "d1" "like" envOwnW).email_status = none ∧
    (ownerAction "d1" "like" envOwnW).emailAttempted = false ∧
    (ownerAction "d1" "like" envOwnW).moved =
      some (StatusF.submitted, StatusF.assistant_liked, "track_d1.mp3",
        "track_d1.mp3.metadata.json") := by
  refine ⟨by decide, by decide, by decide, by decide⟩

/-- C1 amended: only the assistant-action endpoint performs the email
step.  For every successful assistant `like`/`reject` transition
the handler re-downloads the moved metadata file from the
destination folder and, when that download succeeds, attempts the
email notification and reports its outcome in `email_status`
(reporting the fetch failure there otherwise); the owner-action
endpoint never attempts an email and its response never carries an
`email_status`. -/
theorem assistant_emails_owner_does_not :
    (∀ (env : ActionEnv) (demoId action : String),
      action = "like" ∨ action = "reject" →
      (assistantAction demoId action env).status = 200 →
      ∃ mn, (assistantAction demoId action env).metaFetched =
          some (assistantDest action, mn) ∧
        ((env.fetchMeta (assistantDest action) mn).isSome = true →
          (assistantAction demoId action env).emailAttempted = true ∧
          (assistantAction demoId action env).email_status =
            some (sendActionEmailM action env)) ∧
        (env.fetchMeta (assistantDest action) mn = none →
          (assistantAction demoId action env).emailAttempted = false ∧
          (assistantAction demoId action env).email_status =
            some ⟨false, some "Could not fetch demo metadata"⟩)) ∧
    (∀ (env : ActionEnv) (demoId action : String),
      (ownerAction demoId action env).email_status = none ∧
      (ownerAction demoId action env).emailAttempted = false ∧
      (ownerAction demoId action env).metaFetched = none) := by
  constructor
  · intro env demoId action hact h200
    rcases hsrc : assistantSource demoId action env with ⟨src, p1⟩
    have hunf : assistantAction demoId action env =
        assistantFinish action env src p1
          (findDemoA (env.listFolder src) demoId) := by
      have hv : (!(action = "like" || action = "reject" ||
          action = "undo_reject") : Bool) = false := by
        rcases hact with rfl | rfl <;> simp
      simp [assistantAction, hv, hsrc]
    rw [hunf] at h200 ⊢
    exact assistantFinish_email action env src p1 _ hact h200
  · intro env demoId action
    rcases hsrc : ownerSource demoId action env with ⟨src, p1⟩
    by_cases hv : (!(action = "approve" || action = "reject" ||
        action = "undo_reject" || action = "like") : Bool) = true
    · simp [ownerAction, hv, actionFail]
    · have hv2 : (!(action = "approve" || action = "reject" ||
          action = "undo_reject" || action = "like") : Bool) = false := by
        revert hv
        cases (!(action = "approve" || action = "reject" ||
          action = "undo_reject" || action = "like") : Bool) <;> simp
      simp only [ownerAction, hv2, Bool.false_eq_true, if_false, hsrc]
      exact ownerFinish_no_email action env src p1 _

/-- C1 witness: the amended theorem applied to a successful concrete
assistant reject — the metadata is re-fetched from the rejected
folder and the email outcome is reported in `email_status`. -/
theorem assistant_emails_witness :
    (assistantAction "d1" "reject" envAsstW).status = 200 ∧
    ∃ mn, (assistantAction "d1" "reject" envAsstW).metaFetched =
        some (StatusF.rejected, mn) ∧
      (assistantAction "d1" "reject" envAsstW).emailAttempted = true := by
  have h200 : (assistantAction "d1" "reject" envAsstW).status = 200 := by
    decide
  obtain ⟨mn, h1, h2, _⟩ :=
    assistant_emails_owner_does_not.1 envAsstW "d1" "reject" (Or.inr rfl) h200
  have hdest : assistantDest "reject" = StatusF.rejected := by decide
  rw [hdest] at h1
  refine ⟨h200, mn, h1, (h2 rfl).1⟩

/-! ## Helper lemmas about the demos cache gate -/

theorem foldersChangedB_false_iff (env : DemosEnv) (c : DemoCache)
    (hc : env.cache = some c) :
    (foldersChangedB env = false ↔
      ∀ f : StatusF, ∃ files, env.listings f = some files ∧
        c.folderHashes f = some (generateFolderHash files)) := by
  rw [foldersChangedB, List.any_eq_false]
  constructor
  · intro h f
    have hf := h f (mem_allStatuses f)
    cases hl : env.listings f with
    | none => rw [hl] at hf; simp at hf
    | some files =>
      rw [hl, hc] at hf
      simp only [Bool.not_eq_false', Bool.not_eq_true,
        decide_eq_true_eq] at hf
      exact ⟨files, rfl, by simpa using hf⟩
  · intro h f _
    obtain ⟨files, hl, hh⟩ := h f
    rw [hl, hc]
    simp [hh]

theorem cacheExpiredB_false_iff (env : DemosEnv) (c : DemoCache)
    (hc : env.cache = some c) :
    (cacheExpiredB env = false ↔ env.now - c.timestamp ≤ CACHE_DURATION) := by
  rw [cacheExpiredB, hc]
  simp only [decide_eq_false_iff_not, not_lt]

/-- C5 amended: `GET /api/demos` answers from the cache (`cached:
true`, the cached list's own ordering, sliced by pagination) if and
only if a cache entry exists, every one of the four folders lists
successfully with a fresh digest equal to the cached digest, and
the cache is at most `CACHE_DURATION` (15 minutes) old — the code's
age check is inclusive, so a cache exactly 15 minutes old is still
served; any digest mismatch, listing failure or strictly greater
age refetches all four folders in full. -/
theorem demos_cache_hit_characterization (env : DemosEnv)
    (page perPage : Nat) :
    ((demosGET env page perPage).cached = true ↔
      ∃ c, env.cache = some c ∧
        (∀ f : StatusF, ∃ files, env.listings f = some files ∧
          c.folderHashes f = some (generateFolderHash files)) ∧
        env.now - c.timestamp ≤ CACHE_DURATION) ∧
    (∀ c, env.cache = some c → (demosGET env page perPage).cached = true →
      (demosGET env page perPage).demos = paginate c.demos page perPage ∧
      (demosGET env page perPage).count = c.demos.length) ∧
    ((demosGET env page perPage).cached = false →
      (demosGET env page perPage).refetched = allStatuses) := by
  cases hc : env.cache with
  | none =>
    refine ⟨?_, ?_, ?_⟩
    · simp only [demosGET, hc, demosRefetch]
      constructor
      · intro h
        exact absurd h (by simp)
      · rintro ⟨c, hsome, _⟩
        exact absurd hsome (by simp)
    · intro c hsome
      exact absurd hsome (by simp)
    · intro _
      simp only [demosGET, hc, demosRefetch]
  | some c =>
    by_cases hcond : (!foldersChangedB env && !cacheExpiredB env) = true
    · have hres : demosGET env page perPage =
          { cached := true, demos := paginate c.demos page perPage,
            count := c.demos.length, refetched := [], cacheWritten := none } := by
        simp only [demosGET, hc, hcond, if_true]
      obtain ⟨hfc, hce⟩ := by
        simpa only [Bool.and_eq_true, Bool.not_eq_true'] using hcond
      refine ⟨?_, ?_, ?_⟩
      · rw [hres]
        simp only [true_iff]
        exact ⟨c, rfl, (foldersChangedB_false_iff env c hc).mp hfc,
          (cacheExpiredB_false_iff env c hc).mp hce⟩
      · intro c2 hsome _
        obtain rfl := Option.some.inj hsome
        rw [hres]
        exact ⟨rfl, rfl⟩
      · intro hfalse
        rw [hres] at hfalse
        exact absurd hfalse (by simp)
    · have hres : demosGET env page perPage = demosRefetch env page perPage := by
        simp only [demosGET, hc]
        rw [if_neg hcond]
      refine ⟨?_, ?_, ?_⟩
      · rw [hres]
        simp only [demosRefetch]
        constructor
        · intro h
          exact absurd h (by simp)
        · rintro ⟨c2, hsome, hall, hage⟩
          obtain rfl := Option.some.inj hsome.symm
          exact absurd (by
            rw [Bool.and_eq_true, Bool.not_eq_true', Bool.not_eq_true']
            exact ⟨(foldersChangedB_false_iff env c2 hc).mpr hall,
              (cacheExpiredB_false_iff env c2 hc).mpr hage⟩) hcond
      · intro c2 _ htrue
        rw [hres] at htrue
        exact absurd htrue (by simp [demosRefetch])
      · intro _
        rw [hres]
        rfl

/-- C5 counterexample: with every digest matching and the cache exactly
15 minutes old, the handler still serves the cache (`cached:
true`), although the cache timestamp is not strictly younger than
the 15-minute duration — the claim's "younger than" boundary is
inclusive in the code (`>` forces the refetch, not `≥`). -/
theorem demos_cache_boundary_counterexample :
    (demosGET envC5 1 50).cached = true ∧
    ¬ (envC5.now - cacheC5.timestamp < CACHE_DURATION) := by
  refine ⟨by decide, by decide⟩

/-- C5 witness: a fresh matching cache is served with the cached list
and count. -/
theorem demos_cache_hit_witness :
    (demosGET envHitW 1 50).cached = true ∧
    (demosGET envHitW 1 50).demos = paginate cacheC5.demos 1 50 := by
  have h := demos_cache_hit_characterization envHitW 1 50
  have hhit := h.1.mpr ⟨cacheC5, rfl, fun f => ⟨[], rfl, rfl⟩, by decide⟩
  exact ⟨hhit, (h.2.1 cacheC5 rfl hhit).1⟩

end CollectingDots
